import Mathlib

/-!
Shallow embedding of `datadog-env-logger` (`src/lib.rs`): a pretty,
colorized `env_logger` formatter that additionally forwards every log
record carrying a module path as an event to a dogstatsd collector.

The embedding mirrors the source:
  * `Level`, `ColorLevel`, `DogLevel`  — the `log::Level` enum and the two
    `Display` wrappers (lib.rs lines 37-62);
  * `observe` — the `MAX_MODULE_WIDTH` load/compare/store sequence
    (lib.rs lines 146-150);
  * `formatRecord` — the closure passed to `builder.format` (lib.rs
    lines 143-168), rendered as the chronological list of its observable
    effects (the dogstatsd `event` call, a panic from `.unwrap()`, the
    console `writeln!`) together with the updated width tracker;
  * `formatted_builder`, `try_init_custom_env` — the public constructors
    (lib.rs lines 115-171); the dogstatsd `Client::new` outcome, the
    environment variable contents and the "global logger already set"
    condition are explicit parameters.

ANSI rendering follows `ansi_term`: `Color::X.paint(s)` displays as
ESC `[` code `m` s ESC `[0m`; `Style::new().bold()` uses code 1.
-/

/-- `log::Level`. -/
inductive Level where
  | Trace
  | Debug
  | Info
  | Warn
  | Error
deriving DecidableEq, Repr

/-- `ansi_term` painting: prefix escape, content, reset suffix. -/
def ansiPaint (code : String) (s : String) : String :=
  "\x1b[" ++ code ++ "m" ++ s ++ "\x1b[0m"

/-- `ColorLevel`'s `Display` impl (lib.rs 39-49): the colored 3-letter code.
Purple is ANSI 35, Blue 34, Green 32, Yellow 33, Red 31. -/
def ColorLevel (l : Level) : String :=
  match l with
  | .Trace => ansiPaint "35" "TRC"
  | .Debug => ansiPaint "34" "DBG"
  | .Info => ansiPaint "32" "LOG"
  | .Warn => ansiPaint "33" "WRN"
  | .Error => ansiPaint "31" "ERR"

/-- `DogLevel`'s `Display` impl (lib.rs 51-62): the collector-level name. -/
def DogLevel (l : Level) : String :=
  match l with
  | .Trace => "trace"
  | .Debug => "debug"
  | .Info => "info"
  | .Warn => "warning"
  | .Error => "error"

/-- Initial value of the `MAX_MODULE_WIDTH` atomic (lib.rs 64):
`ATOMIC_USIZE_INIT` is zero. -/
def MAX_MODULE_WIDTH : Nat := 0

/-- One observation of a module-path width by the tracker (lib.rs 146-150):
load the current value, and if it is smaller than the observed width,
store the observed width. -/
def observe (prev w : Nat) : Nat :=
  if prev < w then w else prev

/-- `format!("{: <width$}", s)`: left-align `s`, padding on the right with
spaces up to `width`. -/
def padTo (s : String) (width : Nat) : String :=
  s ++ String.mk (List.replicate (width - s.length) ' ')

/-- A `log::Record` as the format closure consumes it: level, optional
module path, and the rendered message (`record.args()`). -/
structure Record where
  level : Level
  module_path : Option String
  args : String
deriving DecidableEq, Repr

/-- The event handed to `dogstatsd::Client::event` (name, text, tags). -/
structure Event where
  name : String
  text : String
  tags : List String
deriving DecidableEq, Repr

/-- Failure of a single dogstatsd send attempt. -/
inductive SendError where
  | sendFailed
deriving DecidableEq, Repr

/-- An observable effect of one run of the format closure, in program
order: a forwarding call to the collector, a panic (from `.unwrap()` on a
failed send), or a console write of a full line. -/
inductive Effect where
  | forward (ev : Event)
  | panicked
  | write (line : String)
deriving DecidableEq, Repr

/-- The closure passed to `builder.format` (lib.rs 143-168), for one
record.  `prev` is the value of `MAX_MODULE_WIDTH` before the call and
`fwd` the outcome of the dogstatsd send attempt.  Returns the
chronological effect list and the tracker value after the call.

With a module path (lib.rs 145-162): update the tracker, build the tags
`level:<DogLevel>` and `module:<path>`, call `dog.event(...)` and
`.unwrap()` it — a failed send panics and the `writeln!` is never
reached; on success write
`" <ColorLevel> <bold module padded to max_width> > <args>\n"`.
Without a module path (lib.rs 163-167): no tracker update, no event,
write `" <ColorLevel> > <args>\n"`. -/
def formatRecord (prev : Nat) (fwd : Except SendError Unit) (r : Record) :
    List Effect × Nat :=
  match r.module_path with
  | some mp =>
    let maxWidth := observe prev mp.length
    let tags := ["level:" ++ DogLevel r.level, "module:" ++ mp]
    let ev : Event := ⟨mp, r.args, tags⟩
    match fwd with
    | .error _ => ([Effect.forward ev, Effect.panicked], maxWidth)
    | .ok _ =>
      ([Effect.forward ev,
        Effect.write (" " ++ ColorLevel r.level ++ " "
          ++ ansiPaint "1" (padTo mp maxWidth) ++ " > " ++ r.args ++ "\n")],
       maxWidth)
  | none =>
    ([Effect.write (" " ++ ColorLevel r.level ++ " > " ++ r.args ++ "\n")],
     prev)

/-- The forwarding calls made during one closure run, in order. -/
def forwardCalls (t : List Effect) : List Event :=
  t.filterMap fun e =>
    match e with
    | .forward ev => some ev
    | _ => none

/-- The console lines written during one closure run, in order. -/
def consoleWrites (t : List Effect) : List String :=
  t.filterMap fun e =>
    match e with
    | .write s => some s
    | _ => none

/-- Whether the closure run panicked. -/
def didPanic (t : List Effect) : Bool :=
  t.any fun e =>
    match e with
    | .panicked => true
    | _ => false

/-- The dogstatsd `Client`, an opaque external collaborator: the embedding
carries no internal state for it. -/
structure Client
deriving DecidableEq, Repr

/-- Failure of `dogstatsd::Client::new` (invalid options, socket bind
failure, ...). -/
inductive DogstatsdError where
  | creationFailed
deriving DecidableEq, Repr

/-- `log::SetLoggerError`: a global logger was already installed. -/
inductive SetLoggerError where
  | alreadySet
deriving DecidableEq, Repr

/-- The `env_logger::Builder` as this crate uses it: the captured dogstatsd
client (held by the format closure installed via `builder.format`) and the
filter directives handed to `builder.parse`. -/
structure Builder where
  client : Client
  directives : Option String
deriving DecidableEq, Repr

/-- `env_logger::Builder::parse`: record the directive string. -/
def Builder.parse (b : Builder) (s : String) : Builder :=
  { b with directives := some s }

/-- `env_logger::Builder::try_init`: installing the global logger fails
exactly when one is already set. -/
def Builder.try_init (_b : Builder) (alreadySet : Bool) :
    Except SetLoggerError Unit :=
  if alreadySet then Except.error SetLoggerError.alreadySet else Except.ok ()

/-- `formatted_builder` (lib.rs 138-171): construct a fresh builder, build
the dogstatsd client with `Client::new(Options::default()).unwrap()` —
modelled by the explicit `clientNew` outcome, where `none` is the panic of
that `.unwrap()` — install the format closure, and return `Ok(builder)`.
The `Err` arm of the declared return type is never produced. -/
def formatted_builder (clientNew : Except DogstatsdError Client) :
    Option (Except SetLoggerError Builder) :=
  match clientNew with
  | .error _ => none
  | .ok dog => some (Except.ok { client := dog, directives := none })

/-- Outcome of `try_init_custom_env`: what was handed to `builder.parse`
(`none` if `parse` was never called) and the `try_init` result. -/
structure InitOutcome where
  parsed : Option String
  result : Except SetLoggerError Unit
deriving Repr

/-- `try_init_custom_env` (lib.rs 115-123): build the formatter with
`formatted_builder()?`, and `if let Ok(s) = env::var(name)` hand `s` to
`builder.parse`, then `builder.try_init()`.  `envVal` is the environment
variable's contents (`none` when the variable is unset or unreadable);
`none` as overall result is the panic propagated out of
`formatted_builder`. -/
def try_init_custom_env (envVal : Option String)
    (clientNew : Except DogstatsdError Client) (alreadySet : Bool) :
    Option InitOutcome :=
  match formatted_builder clientNew with
  | none => none
  | some (Except.error e) => some ⟨none, Except.error e⟩
  | some (Except.ok builder) =>
    let builder :=
      match envVal with
      | some s => builder.parse s
      | none => builder
    some ⟨builder.directives, builder.try_init alreadySet⟩

/-- Helper: one tracker observation computes the maximum of the previous
value and the observed width. -/
theorem observe_eq_max (prev w : Nat) : observe prev w = max prev w := by
  unfold observe
  split <;> omega

/-- Helper: folding tracker observations coincides with folding `max`. -/
theorem foldl_observe_eq_foldl_max (ws : List Nat) (a : Nat) :
    ws.foldl observe a = ws.foldl max a := by
  induction ws generalizing a with
  | nil => rfl
  | cons w ws ih => simp [List.foldl, observe_eq_max, ih]

/-- C2: for every formatted record, the forwarding call to the collector is
made exactly once when the record has a module path, and not at all when it
has none — regardless of the tracker state and of whether the send attempt
succeeds. -/
theorem forward_called_iff_module_path (prev : Nat) (fwd : Except SendError Unit)
    (r : Record) :
    (forwardCalls (formatRecord prev fwd r).1).length
      = if r.module_path.isSome then 1 else 0 := by
  rcases r with ⟨lvl, mp, args⟩
  cases mp <;> cases fwd <;> simp [formatRecord, forwardCalls]

/-- C3: the forwarded event's name is the module path, its text is the
record's message, and its tags are exactly `level:<collector name>` then
`module:<path>`, in that order; the collector-level names are `trace`,
`debug`, `info`, `warning`, `error` (Warn maps to `warning`). -/
theorem forwarded_event_fields (prev : Nat) (fwd : Except SendError Unit)
    (lvl : Level) (mp args : String) :
    forwardCalls (formatRecord prev fwd ⟨lvl, some mp, args⟩).1
      = [⟨mp, args, ["level:" ++ DogLevel lvl, "module:" ++ mp]⟩]
    ∧ DogLevel Level.Trace = "trace" ∧ DogLevel Level.Debug = "debug"
    ∧ DogLevel Level.Info = "info" ∧ DogLevel Level.Warn = "warning"
    ∧ DogLevel Level.Error = "error" := by
  refine ⟨?_, rfl, rfl, rfl, rfl, rfl⟩
  cases fwd <;> simp [formatRecord, forwardCalls]

/-- C6: the module-width tracker starts at 0; a sequence of observations
with widths `w1..wn` leaves it at `max w1 .. wn`; each observation takes
the maximum of the previous value and the observed width, so the value
never decreases; and the format closure performs exactly this observation
with the module path's length (and leaves the tracker unchanged for
module-less records). -/
theorem tracker_running_max :
    MAX_MODULE_WIDTH = 0
    ∧ (∀ ws : List Nat, ws.foldl observe MAX_MODULE_WIDTH = ws.foldl max 0)
    ∧ (∀ prev w, observe prev w = max prev w)
    ∧ (∀ prev w, prev ≤ observe prev w)
    ∧ (∀ prev fwd lvl mp args,
        (formatRecord prev fwd ⟨lvl, some mp, args⟩).2 = observe prev mp.length)
    ∧ (∀ prev fwd lvl args,
        (formatRecord prev fwd ⟨lvl, none, args⟩).2 = prev) := by
  refine ⟨rfl, fun ws => foldl_observe_eq_foldl_max ws MAX_MODULE_WIDTH,
    observe_eq_max, fun prev w => ?_, fun prev fwd lvl mp args => ?_,
    fun prev fwd lvl args => rfl⟩
  · rw [observe_eq_max]
    exact Nat.le_max_left prev w
  · cases fwd <;> rfl

/-- C9: for every record with a module path, the forwarding call is the
first effect of the closure run — it precedes the console write; and when
the send attempt fails, the run panics and produces no console output at
all. -/
theorem forward_precedes_console_write (prev : Nat) (fwd : Except SendError Unit)
    (lvl : Level) (mp args : String) :
    (∃ ev rest, (formatRecord prev fwd ⟨lvl, some mp, args⟩).1
        = Effect.forward ev :: rest)
    ∧ (∀ e : SendError,
        consoleWrites (formatRecord prev (Except.error e) ⟨lvl, some mp, args⟩).1 = []
        ∧ didPanic (formatRecord prev (Except.error e) ⟨lvl, some mp, args⟩).1 = true) := by
  constructor
  · cases fwd <;> exact ⟨_, _, rfl⟩
  · intro e
    exact ⟨rfl, rfl⟩

/-- C1 counterexample: with the collector send failing, the closure run for
a record with a module path panics (the `.unwrap()` on `dog.event`) and
writes nothing to the console — the failure is not surfaced as a
`SendError` value and the formatted text is not written. -/
theorem forwarding_failure_aborts_console_write :
    consoleWrites (formatRecord 0 (Except.error SendError.sendFailed)
        ⟨Level.Info, some "one::deep", "such information"⟩).1 = []
    ∧ didPanic (formatRecord 0 (Except.error SendError.sendFailed)
        ⟨Level.Info, some "one::deep", "such information"⟩).1 = true :=
  ⟨rfl, rfl⟩

/-- C1 amended: for every record with a module path, a failed send attempt
makes the closure panic via `.unwrap()` — no `SendError` value is returned
and the console write is not performed; only when the send succeeds is the
formatted line written (and no panic occurs). -/
theorem forwarding_failure_panics (prev : Nat) (lvl : Level) (mp args : String)
    (e : SendError) :
    (formatRecord prev (Except.error e) ⟨lvl, some mp, args⟩).1
      = [Effect.forward ⟨mp, args, ["level:" ++ DogLevel lvl, "module:" ++ mp]⟩,
         Effect.panicked]
    ∧ consoleWrites (formatRecord prev (Except.error e) ⟨lvl, some mp, args⟩).1 = []
    ∧ consoleWrites (formatRecord prev (Except.ok ()) ⟨lvl, some mp, args⟩).1
      = [" " ++ ColorLevel lvl ++ " "
          ++ ansiPaint "1" (padTo mp (observe prev mp.length)) ++ " > " ++ args ++ "\n"]
    ∧ didPanic (formatRecord prev (Except.ok ()) ⟨lvl, some mp, args⟩).1 = false :=
  ⟨rfl, rfl, rfl, rfl⟩

/-- C4 counterexample: a message with an embedded newline is written
verbatim — the rendered line for `"line1\nline2"` contains `"\nline2"` and
nowhere in the output does a newline get followed by a space, while the
claimed policy requires the continuation line to be indented by the header
width (positive here). -/
theorem no_continuation_indent_counterexample :
    consoleWrites (formatRecord 0 (Except.ok ())
        ⟨Level.Info, some "one::deep", "line1\nline2"⟩).1
      = [" \x1b[32mLOG\x1b[0m \x1b[1mone::deep\x1b[0m > line1\nline2\n"]
    ∧ decide (['\n', ' ']
        <:+: (" \x1b[32mLOG\x1b[0m \x1b[1mone::deep\x1b[0m > line1\nline2\n").toList)
      = false := by
  exact ⟨by decide, by decide⟩

/-- C4 amended: no continuation indent is applied — the message body is
rendered verbatim after the header, each embedded newline passed through
unchanged, so continuation lines start at column 0 (shown for both the
module and the module-less arm). -/
theorem message_rendered_verbatim (prev : Nat) (fwd : Except SendError Unit)
    (lvl : Level) (mp l1 l2 : String) :
    consoleWrites (formatRecord prev (Except.ok ())
        ⟨lvl, some mp, l1 ++ "\n" ++ l2⟩).1
      = [" " ++ ColorLevel lvl ++ " "
          ++ ansiPaint "1" (padTo mp (observe prev mp.length)) ++ " > "
          ++ l1 ++ "\n" ++ l2 ++ "\n"]
    ∧ consoleWrites (formatRecord prev fwd ⟨lvl, none, l1 ++ "\n" ++ l2⟩).1
      = [" " ++ ColorLevel lvl ++ " > " ++ l1 ++ "\n" ++ l2 ++ "\n"] := by
  constructor
  · simp [formatRecord, consoleWrites, String.append_assoc]
  · cases fwd <;> simp [formatRecord, consoleWrites, String.append_assoc]

/-- C5 counterexample: the rendered line for a record with a module path
contains no closing bracket at all, while the claimed header form
`"displayCode [time module_path]"` would put `]` right after the module
path; there is no bracketed time segment in the output. -/
theorem header_without_time_counterexample :
    consoleWrites (formatRecord 0 (Except.ok ())
        ⟨Level.Info, some "one::deep", "such information"⟩).1
      = [" \x1b[32mLOG\x1b[0m \x1b[1mone::deep\x1b[0m > such information\n"]
    ∧ List.contains
        (" \x1b[32mLOG\x1b[0m \x1b[1mone::deep\x1b[0m > such information\n").toList
        ']'
      = false := by
  exact ⟨by decide, by decide⟩

/-- C5 amended: the rendered line is
`" <colored code> <bold module padded> > <message>\n"` for records with a
module path and `" <colored code> > <message>\n"` without — a single
line with no elapsed-time component and no bracketed segment. -/
theorem header_actual_form (prev : Nat) (fwd : Except SendError Unit)
    (lvl : Level) (mp args : String) :
    consoleWrites (formatRecord prev (Except.ok ()) ⟨lvl, some mp, args⟩).1
      = [" " ++ ColorLevel lvl ++ " "
          ++ ansiPaint "1" (padTo mp (observe prev mp.length)) ++ " > " ++ args ++ "\n"]
    ∧ consoleWrites (formatRecord prev fwd ⟨lvl, none, args⟩).1
      = [" " ++ ColorLevel lvl ++ " > " ++ args ++ "\n"] := by
  constructor
  · rfl
  · cases fwd <;> rfl

/-- C7 counterexample: with the environment variable present but empty, the
empty string is still handed to `builder.parse` — the claimed "present and
non-empty" condition does not match the code, which tests only
`env::var(...).is_ok()`. -/
theorem empty_env_var_still_parsed :
    (try_init_custom_env (some "") (Except.ok Client.mk) false).map InitOutcome.parsed
      = some (some "") := rfl

/-- C7 amended: when the builder is constructed, the environment variable's
contents are handed to `builder.parse` if and only if the variable is
present (even when its value is empty); when it is unset nothing is parsed,
no error arises from the lookup, and initialization succeeds exactly when
no global logger was already installed. -/
theorem env_var_passed_iff_present (c : Client) (envVal : Option String)
    (alreadySet : Bool) :
    try_init_custom_env envVal (Except.ok c) alreadySet
      = some ⟨envVal,
          if alreadySet then Except.error SetLoggerError.alreadySet
          else Except.ok ()⟩ := by
  cases envVal <;> cases alreadySet <;> rfl

/-- C8: `formatted_builder` never returns an `Err` value — every run that
returns at all returns `Ok`; when the dogstatsd client construction fails,
the function panics (the `.unwrap()` on `Client::new`) instead of
reporting the failure through its `Result`. -/
theorem formatted_builder_never_errs :
    (∀ cn r, formatted_builder cn = some r → ∃ b, r = Except.ok b)
    ∧ (∀ e, formatted_builder (Except.error e) = none) := by
  constructor
  · intro cn r h
    cases cn with
    | error e => exact absurd h (by simp [formatted_builder])
    | ok c =>
      refine ⟨{ client := c, directives := none }, ?_⟩
      simpa [formatted_builder] using h.symm
  · intro e
    rfl

/-- C8 witness: the theorem applied at a successfully constructed client
and at a failed construction. -/
theorem formatted_builder_never_errs_witness :
    (∃ b, (Except.ok { client := Client.mk, directives := none }
        : Except SetLoggerError Builder) = Except.ok b)
    ∧ formatted_builder (Except.error DogstatsdError.creationFailed) = none :=
  ⟨formatted_builder_never_errs.1 (Except.ok Client.mk)
      (Except.ok { client := Client.mk, directives := none }) rfl,
   formatted_builder_never_errs.2 DogstatsdError.creationFailed⟩

/-- C10: the alignment policy is module-field padding — for a record with a
module path the tracker is updated to the maximum of its previous value and
this module's length, the module name is right-padded with spaces to that
value (so the padded field's width equals the running maximum), and a
record whose module is the longest seen so far is printed unpadded. -/
theorem module_column_padding (prev : Nat) (lvl : Level) (mp args : String) :
    (formatRecord prev (Except.ok ()) ⟨lvl, some mp, args⟩).1
      = [Effect.forward ⟨mp, args, ["level:" ++ DogLevel lvl, "module:" ++ mp]⟩,
         Effect.write (" " ++ ColorLevel lvl ++ " "
           ++ ansiPaint "1" (padTo mp (max prev mp.length)) ++ " > " ++ args ++ "\n")]
    ∧ (padTo mp (max prev mp.length)).length = max prev mp.length
    ∧ (prev ≤ mp.length → padTo mp (max prev mp.length) = mp) := by
  refine ⟨?_, ?_, ?_⟩
  · simp [formatRecord, observe_eq_max]
  · have h := Nat.le_max_right prev mp.length
    simp only [padTo, String.length_append, String.length_mk, List.length_replicate]
    omega
  · intro h
    simp only [padTo, Nat.max_eq_right h, Nat.sub_self]
    exact String.append_empty mp

/-- C10 witness: the theorem applied at a concrete tracker state and
record whose module path is the longest seen so far. -/
theorem module_column_padding_witness :
    ((formatRecord 3 (Except.ok ()) ⟨Level.Info, some "one::deep", "x"⟩).1
      = [Effect.forward ⟨"one::deep", "x",
           ["level:" ++ DogLevel Level.Info, "module:" ++ "one::deep"]⟩,
         Effect.write (" " ++ ColorLevel Level.Info ++ " "
           ++ ansiPaint "1" (padTo "one::deep" (max 3 "one::deep".length))
           ++ " > " ++ "x" ++ "\n")])
    ∧ 3 ≤ "one::deep".length
    ∧ padTo "one::deep" (max 3 "one::deep".length) = "one::deep" := by
  have h := module_column_padding 3 Level.Info "one::deep" "x"
  exact ⟨h.1, by decide, h.2.2 (by decide)⟩
